import Mathlib

/-
Verification of pydantic_claude_sonnet_capitalofitaly.py: a single-file
wrapper around a remote text-completion service.  The Python program is
shallowly embedded below.  Floating-point temperatures are modelled as
rationals (the program performs no float arithmetic, only range checks and
pass-through), Python dict payloads as association lists over a small JSON
value type, and the remote client as an explicit oracle function from wire
requests to outcomes; every request the code issues is collected in a trace
list so that call-count properties are statable.
-/

namespace CapAgent

/-- JSON-like values, standing in for the arbitrary dict payloads that the
Python anthropic client returns from model_dump and that the error path
builds by hand. -/
inductive JsonVal where
  | str (s : String)
  | num (q : Rat)
  | arr (l : List JsonVal)
  | obj (l : List (String × JsonVal))
  | null
deriving Repr

/-- A Python dict with string keys, as an association list. -/
abbrev RawDict := List (String × JsonVal)

/-- AgentMessage (source lines 20-23): a pydantic model with two required
string fields.  The source declares no validator restricting role to
particular values; the parenthetical in the Field description is
documentation only. -/
structure AgentMessage where
  role : String
  content : String
deriving Repr, DecidableEq

/-- Pydantic construction of AgentMessage: both fields are required
(Field(..., ...)), so construction fails with a ValidationError exactly when
one of them is absent; any pair of present strings is stored unchanged. -/
def AgentMessage.construct (role? : Option String) (content? : Option String) :
    Except String AgentMessage :=
  match role?, content? with
  | some r, some c => .ok ⟨r, c⟩
  | none, _ => .error "ValidationError: role Field required"
  | some _, none => .error "ValidationError: content Field required"

/-- AgentQuery (source lines 25-30): messages, model, max_tokens and
temperature, with the defaults given in the Field declarations. -/
structure AgentQuery where
  messages : List AgentMessage
  model : String
  max_tokens : Int
  temperature : Rat
deriving Repr, DecidableEq

/-- The default model identifier from the AgentQuery Field declaration. -/
def defaultModel : String := "claude-3-7-sonnet-20250219"

/-- Pydantic construction of AgentQuery.  The only constrained field in the
source is temperature (ge=0, le=1); messages, model and max_tokens carry no
constraint beyond their type, in particular max_tokens has no positivity
bound in the source. -/
def AgentQuery.construct (messages : List AgentMessage) (model : String)
    (max_tokens : Int) (temperature : Rat) : Except String AgentQuery :=
  if 0 ≤ temperature ∧ temperature ≤ 1 then
    .ok ⟨messages, model, max_tokens, temperature⟩
  else
    .error "ValidationError: temperature out of range"

/-- AgentResponse (source lines 32-35): answer is required, raw_response is
optional with default None. -/
structure AgentResponse where
  answer : String
  raw_response : Option RawDict
deriving Repr

/-- One entry of the query_params dict, restricted to the two benign key
families of source lines 57-59: a key naming one of the four AgentQuery
fields, carrying a value of that field's declared type, or a key absent
from the query object altogether (hasattr(query, key) false), which the
loop skips.  A key for which hasattr is true without being a declared
field — pydantic method and class-attribute names such as dict, copy or
model_dump — makes setattr raise ValueError instead; that raising family,
together with ill-typed messages override values, is modelled by ParamX
below, and askX_agrees shows the two models coincide on this benign
fragment. -/
inductive Param where
  | messages (l : List AgentMessage)
  | model (s : String)
  | max_tokens (n : Int)
  | temperature (q : Rat)
  | unknown (key : String)
deriving Repr

/-- setattr(query, key, value) for one benign query_params entry (source
lines 57-59).  Pydantic models do not validate on assignment unless
validate_assignment is enabled, which the source does not do, so a field
value is stored without any re-validation; a hasattr-false key fails the
guard and leaves the query untouched.  The ValueError that setattr raises
for a method-name key is outside this benign fragment and is modelled by
setParamX below. -/
def setParam (q : AgentQuery) : Param → AgentQuery
  | .messages l => { q with messages := l }
  | .model s => { q with model := s }
  | .max_tokens n => { q with max_tokens := n }
  | .temperature t => { q with temperature := t }
  | .unknown _ => q

/-- One message of the outgoing wire request, the dict built by the list
comprehension on source line 67. -/
structure WireMessage where
  role : String
  content : String
deriving Repr, DecidableEq

/-- The outgoing request of client.messages.create (source lines 63-68). -/
structure WireRequest where
  model : String
  max_tokens : Int
  temperature : Rat
  messages : List WireMessage
deriving Repr, DecidableEq

/-- A content block of a successful reply; the source reads its text
attribute (line 71). -/
structure ContentBlock where
  text : String
deriving Repr, DecidableEq

/-- A successful reply from the remote service: its content block list and
the dict produced by its model_dump method. -/
structure RemoteReply where
  content : List ContentBlock
  model_dump : RawDict

/-- Outcome of one remote call: either a reply object or a raised
exception, carried as its stringification str(e). -/
inductive RemoteOutcome where
  | ok (r : RemoteReply)
  | exn (e : String)

/-- ClaudeAgent (source lines 37-46): after construction it holds the
resolved credential and the client handle built from it. -/
structure ClaudeAgent where
  api_key : String
  client_key : String
deriving Repr, DecidableEq

/-- Python truthiness of an optional string: None and the empty string are
falsy. -/
def nonEmptyOpt : Option String → Bool
  | none => false
  | some s => !(s = "")

/-- ClaudeAgent.__init__ (source lines 40-46).  api_key? is the explicit
constructor argument, env_key? the value of the ANTHROPIC_API_KEY
environment variable (none when unset).  self.api_key = api_key or
os.environ.get(...) uses Python truthiness, then a falsy result raises
ValueError; otherwise only the client handle is built - the body contains
no call to the remote service. -/
def ClaudeAgent.init (api_key? : Option String) (env_key? : Option String) :
    Except String ClaudeAgent :=
  let key : String :=
    match api_key? with
    | some k => if k = "" then (env_key?.getD "") else k
    | none => env_key?.getD ""
  if key = "" then
    .error "ANTHROPIC_API_KEY must be provided either as an argument or as an environment variable"
  else
    .ok ⟨key, key⟩

/-- The query built on source lines 51-53: a single user message carrying
the question, every other field at its declared default (model
claude-3-7-sonnet-20250219, max_tokens 1000, temperature 0.7). -/
def defaultQuery (question : String) : AgentQuery :=
  { messages := [⟨"user", question⟩]
    model := defaultModel
    max_tokens := 1000
    temperature := (7 : Rat) / 10 }

/-- The query after the override loop of source lines 56-59: the
query_params entries applied in dict-iteration order on top of the default
query. -/
def builtQuery (question : String) (query_params : List Param) : AgentQuery :=
  query_params.foldl setParam (defaultQuery question)

/-- The wire request assembled from a query on source lines 63-68: model,
max_tokens and temperature are passed through, and the message list is
converted element-wise, in order, to the role/content wire shape. -/
def wireOf (q : AgentQuery) : WireRequest :=
  { model := q.model
    max_tokens := q.max_tokens
    temperature := q.temperature
    messages := q.messages.map (fun m => ⟨m.role, m.content⟩) }

/-- The single request that ask issues for a given question and override
list. -/
def builtReq (question : String) (query_params : List Param) : WireRequest :=
  wireOf (builtQuery question query_params)

/-- ClaudeAgent.ask (source lines 48-83).  The remote client is the oracle
argument; the result carries the AgentResponse, the agent state after the
call (the body never assigns to self, so it is returned unchanged), and
the trace of wire requests issued (the body calls client.messages.create
exactly once).  The try block of lines 62-77 wraps the remote call, the
content[0].text extraction and the success-response construction; except
Exception on line 79 converts any exception e raised there into
AgentResponse(answer="Error: " + str(e), raw_response=dict(error=str(e))).
An empty content list makes content[0] raise IndexError inside the try,
which the same handler catches.  The Except layer of the return type
represents exceptions propagating out of ask; over this benign override
fragment nothing outside the try can raise, so ask always returns .ok
here.  The full override behaviour, including the ValueError that a
method-name key raises before the try, is askX below. -/
def ClaudeAgent.ask (self : ClaudeAgent) (question : String)
    (query_params : List Param) (remote : WireRequest → RemoteOutcome) :
    Except String (AgentResponse × ClaudeAgent × List WireRequest) :=
  match AgentQuery.construct [⟨"user", question⟩] defaultModel 1000 ((7 : Rat) / 10) with
  | .error e => .error e
  | .ok query0 =>
    let query := query_params.foldl setParam query0
    let req := wireOf query
    match remote req with
    | .ok r =>
      match r.content with
      | [] =>
        .ok (⟨"Error: " ++ "list index out of range",
              some [("error", JsonVal.str "list index out of range")]⟩, self, [req])
      | b :: _ => .ok (⟨b.text, some r.model_dump⟩, self, [req])
    | .exn e => .ok (⟨"Error: " ++ e, some [("error", JsonVal.str e)]⟩, self, [req])

/-- Boolean success test for an Except result. -/
def exOk {α : Type} : Except String α → Bool
  | .ok _ => true
  | .error _ => false

/-- The trace of wire requests issued by one ask call (empty in the
unreachable propagating-exception case). -/
def askTrace (self : ClaudeAgent) (question : String)
    (query_params : List Param) (remote : WireRequest → RemoteOutcome) :
    List WireRequest :=
  match self.ask question query_params remote with
  | .ok (_, _, tr) => tr
  | .error _ => []

/-- The agent state after one ask call (the input state in the unreachable
propagating-exception case). -/
def askAgent (self : ClaudeAgent) (question : String)
    (query_params : List Param) (remote : WireRequest → RemoteOutcome) :
    ClaudeAgent :=
  match self.ask question query_params remote with
  | .ok (_, a, _) => a
  | .error _ => self

/-- The AgentResponse that ask produces from a given remote outcome: the
first content block's text on success, the "Error: " conversion on a raised
exception, and the caught IndexError of content[0] on an empty content
list. -/
def respOf : RemoteOutcome → AgentResponse
  | .ok r =>
    match r.content with
    | [] => ⟨"Error: " ++ "list index out of range",
             some [("error", JsonVal.str "list index out of range")]⟩
    | b :: _ => ⟨b.text, some r.model_dump⟩
  | .exn e => ⟨"Error: " ++ e, some [("error", JsonVal.str e)]⟩

/-- A value sitting in the messages field after an unvalidated override
assignment: either an object carrying role and content attributes, or an
object lacking them, on which the attribute access m.role of the wire
conversion raises; the string is str of the exception that access
raises (e.g. an AttributeError). -/
inductive MsgVal where
  | msg (m : AgentMessage)
  | notMsg (err : String)
deriving Repr, DecidableEq

/-- str(e) for the ValueError that pydantic raises when setattr names an
attribute of the model that is not a declared field (a method or class
attribute such as dict, copy or model_dump). -/
def noFieldError (key : String) : String :=
  "\"AgentQuery\" object has no field \"" ++ key ++ "\""

/-- One entry of the query_params dict in the full model of source lines
57-59, classified by how the hasattr guard and setattr treat its key: a
key naming one of the four AgentQuery fields stores its value unvalidated
(a messages value may be an arbitrary object list, hence List MsgVal); a
method or class-attribute key passes hasattr yet makes setattr raise
ValueError; a key absent from the object fails hasattr and is skipped. -/
inductive ParamX where
  | messages (l : List MsgVal)
  | model (s : String)
  | max_tokens (n : Int)
  | temperature (q : Rat)
  | method (key : String)
  | unknown (key : String)
deriving Repr

/-- AgentQuery as it can actually look once the unvalidated override loop
has run: the messages field may hold objects that are not messages. -/
structure AgentQueryX where
  messages : List MsgVal
  model : String
  max_tokens : Int
  temperature : Rat
deriving Repr, DecidableEq

/-- A freshly constructed (validated) query viewed in the runtime shape
that the override loop mutates. -/
def AgentQuery.toX (q : AgentQuery) : AgentQueryX :=
  { messages := q.messages.map MsgVal.msg
    model := q.model
    max_tokens := q.max_tokens
    temperature := q.temperature }

/-- The query of source lines 51-53 in the runtime shape: one user message
carrying the question, the other fields at their declared defaults. -/
def defaultQueryX (question : String) : AgentQueryX :=
  { messages := [MsgVal.msg ⟨"user", question⟩]
    model := defaultModel
    max_tokens := 1000
    temperature := (7 : Rat) / 10 }

/-- setattr(query, key, value) in the full model: a field key stores the
value without re-validation, a method-name key raises ValueError (the
name passes hasattr but is not a declared field), and a hasattr-false key
never reaches setattr. -/
def setParamX (q : AgentQueryX) : ParamX → Except String AgentQueryX
  | .messages l => .ok { q with messages := l }
  | .model s => .ok { q with model := s }
  | .max_tokens n => .ok { q with max_tokens := n }
  | .temperature t => .ok { q with temperature := t }
  | .method key => .error (noFieldError key)
  | .unknown _ => .ok q

/-- The override loop of source lines 56-59 in the full model: entries are
applied in dict-iteration order and the first method-name key raises,
aborting the loop; this happens before the try block, so the error
propagates out of ask. -/
def applyParamsX (q : AgentQueryX) : List ParamX → Except String AgentQueryX
  | [] => .ok q
  | p :: ps =>
    match setParamX q p with
    | .ok q2 => applyParamsX q2 ps
    | .error e => .error e

/-- The list comprehension of source line 67 on a possibly ill-typed
messages value: converts elements to wire shape in order and raises, with
the first non-message element's attribute error, when m.role is accessed
on it.  The comprehension is evaluated inside the try block while the
arguments of messages.create are built, so this error is caught. -/
def wireMsgs : List MsgVal → Except String (List WireMessage)
  | [] => .ok []
  | MsgVal.msg m :: rest =>
    match wireMsgs rest with
    | .ok ws => .ok (⟨m.role, m.content⟩ :: ws)
    | .error e => .error e
  | MsgVal.notMsg e :: _ => .error e

/-- The body of ask after query construction, in the full model: the
override loop (whose ValueError, if any, propagates), then the try block
of source lines 62-77 — wire conversion of the messages value, the single
remote call, first-block text extraction — with except Exception turning
any exception raised inside into the Error response.  The trace lists the
requests issued: empty when the wire conversion raised before the call,
one request otherwise. -/
def askXCore (self : ClaudeAgent) (q0 : AgentQueryX) (query_params : List ParamX)
    (remote : WireRequest → RemoteOutcome) :
    Except String (AgentResponse × ClaudeAgent × List WireRequest) :=
  match applyParamsX q0 query_params with
  | .error e => .error e
  | .ok query =>
    match wireMsgs query.messages with
    | .error e => .ok (⟨"Error: " ++ e, some [("error", JsonVal.str e)]⟩, self, [])
    | .ok wms =>
      match remote ⟨query.model, query.max_tokens, query.temperature, wms⟩ with
      | .ok r =>
        match r.content with
        | [] =>
          .ok (⟨"Error: " ++ "list index out of range",
                some [("error", JsonVal.str "list index out of range")]⟩,
               self, [⟨query.model, query.max_tokens, query.temperature, wms⟩])
        | b :: _ =>
          .ok (⟨b.text, some r.model_dump⟩, self,
               [⟨query.model, query.max_tokens, query.temperature, wms⟩])
      | .exn e =>
        .ok (⟨"Error: " ++ e, some [("error", JsonVal.str e)]⟩, self,
             [⟨query.model, query.max_tokens, query.temperature, wms⟩])

/-- ClaudeAgent.ask (source lines 48-83) in the full override model:
validated query construction, then askXCore. -/
def ClaudeAgent.askX (self : ClaudeAgent) (question : String)
    (query_params : List ParamX) (remote : WireRequest → RemoteOutcome) :
    Except String (AgentResponse × ClaudeAgent × List WireRequest) :=
  match AgentQuery.construct [⟨"user", question⟩] defaultModel 1000 ((7 : Rat) / 10) with
  | .error e => .error e
  | .ok query0 => askXCore self query0.toX query_params remote

/-- The trace of wire requests issued by one askX call: empty both when
the ValueError of a method-name key propagates (the loop runs before the
call) and when the wire conversion raises inside the try. -/
def askXTrace (self : ClaudeAgent) (question : String)
    (query_params : List ParamX) (remote : WireRequest → RemoteOutcome) :
    List WireRequest :=
  match self.askX question query_params remote with
  | .ok (_, _, tr) => tr
  | .error _ => []

/-- The injection of the benign override fragment into the full model. -/
def Param.toX : Param → ParamX
  | .messages l => ParamX.messages (l.map MsgVal.msg)
  | .model s => ParamX.model s
  | .max_tokens n => ParamX.max_tokens n
  | .temperature t => ParamX.temperature t
  | .unknown k => ParamX.unknown k

/-- The default query passes construction-time validation, since the
default temperature 0.7 lies in [0,1]. -/
theorem construct_default (q : String) :
    AgentQuery.construct [⟨"user", q⟩] defaultModel 1000 ((7 : Rat) / 10) =
      .ok (defaultQuery q) := by
  have h : (0 : Rat) ≤ 7 / 10 ∧ (7 : Rat) / 10 ≤ 1 := by constructor <;> norm_num
  unfold AgentQuery.construct defaultQuery
  rw [if_pos h]

/-- Normal form of one ask call: it always returns without raising, issues
exactly the single request builtReq, maps the outcome through respOf and
leaves the agent unchanged. -/
theorem ask_eq (a : ClaudeAgent) (q : String) (ps : List Param)
    (remote : WireRequest → RemoteOutcome) :
    a.ask q ps remote = .ok (respOf (remote (builtReq q ps)), a, [builtReq q ps]) := by
  unfold ClaudeAgent.ask
  rw [construct_default]
  show (match remote (builtReq q ps) with
    | .ok r =>
      match r.content with
      | [] => Except.ok (⟨"Error: " ++ "list index out of range",
          some [("error", JsonVal.str "list index out of range")]⟩, a, [builtReq q ps])
      | b :: _ => Except.ok (⟨b.text, some r.model_dump⟩, a, [builtReq q ps])
    | .exn e => Except.ok (⟨"Error: " ++ e, some [("error", JsonVal.str e)]⟩, a,
        [builtReq q ps]))
    = Except.ok (respOf (remote (builtReq q ps)), a, [builtReq q ps])
  cases remote (builtReq q ps) with
  | ok r =>
    obtain ⟨content, dump⟩ := r
    cases content with
    | nil => rfl
    | cons b rest => rfl
  | exn e => rfl

/-- C1: on any failure e raised by the remote messages.create call, ask
catches it and returns (never raises) a response whose answer is
"Error: " followed by the stringified failure and whose raw_response is
the singleton error dict; the agent is untouched and exactly the one
request was issued. -/
theorem ask_error_swallowing (a : ClaudeAgent) (q : String) (ps : List Param)
    (remote : WireRequest → RemoteOutcome) (e : String)
    (h : remote (builtReq q ps) = RemoteOutcome.exn e) :
    a.ask q ps remote =
      .ok (⟨"Error: " ++ e, some [("error", JsonVal.str e)]⟩, a, [builtReq q ps]) := by
  rw [ask_eq, h]
  rfl

/-- Witness for C1 at a concrete question and a mocked connection
failure. -/
theorem ask_error_swallowing_witness :
    (fun _ : WireRequest => RemoteOutcome.exn "Connection error")
        (builtReq "What is the capital of Italy?" []) =
      RemoteOutcome.exn "Connection error"
    ∧ ClaudeAgent.ask ⟨"k", "k"⟩ "What is the capital of Italy?" []
        (fun _ => RemoteOutcome.exn "Connection error") =
      .ok (⟨"Error: " ++ "Connection error",
            some [("error", JsonVal.str "Connection error")]⟩, ⟨"k", "k"⟩,
           [builtReq "What is the capital of Italy?" []]) :=
  ⟨rfl, ask_error_swallowing ⟨"k", "k"⟩ "What is the capital of Italy?" []
    (fun _ => RemoteOutcome.exn "Connection error") "Connection error" rfl⟩

/-- C2: AgentQuery construction succeeds exactly when the temperature lies
in the closed interval [0,1]; inside the interval the fields are stored
unchanged. -/
theorem agentQuery_temperature_validation (msgs : List AgentMessage)
    (model : String) (mt : Int) (t : Rat) :
    (exOk (AgentQuery.construct msgs model mt t) = true ↔ 0 ≤ t ∧ t ≤ 1)
    ∧ (0 ≤ t → t ≤ 1 →
        AgentQuery.construct msgs model mt t = .ok ⟨msgs, model, mt, t⟩) := by
  unfold AgentQuery.construct
  constructor
  · by_cases h : 0 ≤ t ∧ t ≤ 1 <;> simp [h, exOk]
  · intro h1 h2
    rw [if_pos ⟨h1, h2⟩]

/-- Witness for C2 at temperature one half. -/
theorem agentQuery_temperature_validation_witness :
    exOk (AgentQuery.construct [] defaultModel 1000 ((1 : Rat) / 2)) = true
    ∧ AgentQuery.construct [] defaultModel 1000 ((1 : Rat) / 2) =
        .ok ⟨[], defaultModel, 1000, (1 : Rat) / 2⟩ :=
  ⟨(agentQuery_temperature_validation [] defaultModel 1000 ((1 : Rat) / 2)).1.mpr
    (by constructor <;> norm_num),
   (agentQuery_temperature_validation [] defaultModel 1000 ((1 : Rat) / 2)).2
    (by norm_num) (by norm_num)⟩

/-- C3 counterexample: the override temperature = 2.0 is out of range, yet
ask raises no validation error and the remote call is issued (with the
out-of-range value), refuting that the override fails before any remote
call the way fresh construction would. -/
theorem ask_override_no_revalidation_cex :
    ClaudeAgent.ask ⟨"k", "k"⟩ "q" [Param.temperature 2]
        (fun _ => RemoteOutcome.exn "boom") =
      .ok (⟨"Error: " ++ "boom", some [("error", JsonVal.str "boom")]⟩, ⟨"k", "k"⟩,
           [{ model := defaultModel, max_tokens := 1000, temperature := 2,
              messages := [⟨"user", "q"⟩] }]) := by
  rw [ask_eq]
  rfl

/-- C3 amended: applying an override through attribute-setting performs no
re-validation; for every temperature value t, in range or not, ask accepts
the override without error and issues the remote call with temperature t. -/
theorem ask_override_no_revalidation (a : ClaudeAgent) (q : String) (t : Rat)
    (remote : WireRequest → RemoteOutcome) :
    exOk (a.ask q [Param.temperature t] remote) = true
    ∧ askTrace a q [Param.temperature t] remote =
        [{ model := defaultModel, max_tokens := 1000, temperature := t,
           messages := [⟨"user", q⟩] }] := by
  constructor
  · rw [ask_eq]
    rfl
  · unfold askTrace
    rw [ask_eq]
    rfl

/-- C4 counterexample: AgentQuery construction succeeds at the non-positive
max_tokens value 0, refuting that non-positive values fail validation. -/
theorem agentQuery_max_tokens_cex :
    AgentQuery.construct [] defaultModel 0 ((7 : Rat) / 10) =
      .ok ⟨[], defaultModel, 0, (7 : Rat) / 10⟩ := by
  unfold AgentQuery.construct
  rw [if_pos]
  constructor <;> norm_num

/-- C4 amended: the source declares no bound on max_tokens, so whether
AgentQuery construction succeeds is independent of the max_tokens value;
any integer, zero and negatives included, is accepted whenever the
temperature is in range. -/
theorem agentQuery_no_max_tokens_validation (msgs : List AgentMessage)
    (model : String) (mt : Int) (t : Rat) :
    exOk (AgentQuery.construct msgs model mt t) =
      exOk (AgentQuery.construct msgs model 1000 t) := by
  unfold AgentQuery.construct
  by_cases h : 0 ≤ t ∧ t ≤ 1 <;> simp [h, exOk]

/-- C5 counterexample: a role outside the user/assistant pair is accepted
by AgentMessage construction, refuting that such roles fail validation. -/
theorem agentMessage_role_cex :
    AgentMessage.construct (some "system") (some "hello") =
      .ok ⟨"system", "hello"⟩ := rfl

/-- C5 amended: AgentMessage construction fails exactly when role or
content is absent; the source enumerates no roles, so every present role
string is accepted and both fields are stored unchanged. -/
theorem agentMessage_construct_spec (role? content? : Option String) :
    (exOk (AgentMessage.construct role? content?) =
      (role?.isSome && content?.isSome))
    ∧ (∀ r c : String, AgentMessage.construct (some r) (some c) = .ok ⟨r, c⟩) := by
  constructor
  · cases role? <;> cases content? <;> rfl
  · intro r c
    rfl

/-- C6: ClaudeAgent construction fails exactly when neither the explicit
api_key argument nor the ANTHROPIC_API_KEY environment value is a
non-empty string, and a non-empty explicit argument takes precedence over
the environment; the body builds only the client handle, issuing no remote
request (its embedding neither consumes a remote oracle nor produces a
trace entry). -/
theorem claudeAgent_init_spec (a e : Option String) :
    (exOk (ClaudeAgent.init a e) = (nonEmptyOpt a || nonEmptyOpt e))
    ∧ (∀ k : String, ¬k = "" → ClaudeAgent.init (some k) e = .ok ⟨k, k⟩) := by
  constructor
  · rcases a with _ | s
    · rcases e with _ | u
      · rfl
      · unfold ClaudeAgent.init nonEmptyOpt
        by_cases h : u = "" <;> simp [h, exOk]
    · rcases e with _ | u
      · unfold ClaudeAgent.init nonEmptyOpt
        by_cases h : s = "" <;> simp [h, exOk]
      · unfold ClaudeAgent.init nonEmptyOpt
        by_cases h : s = "" <;> by_cases h2 : u = "" <;> simp [h, h2, exOk]
  · intro k hk
    simp [ClaudeAgent.init, hk]

/-- Witness for C6: an empty explicit argument falls back to the
environment value, and a non-empty explicit argument wins. -/
theorem claudeAgent_init_spec_witness :
    (exOk (ClaudeAgent.init (some "") (some "sk-env")) =
      (nonEmptyOpt (some "") || nonEmptyOpt (some "sk-env")))
    ∧ ClaudeAgent.init (some "sk-arg") (some "sk-env") =
        .ok ⟨"sk-arg", "sk-arg"⟩ :=
  ⟨(claudeAgent_init_spec (some "") (some "sk-env")).1,
   (claudeAgent_init_spec (some "sk-arg") (some "sk-env")).2 "sk-arg" (by decide)⟩

/-- C7: when the remote reply succeeds with a non-empty content list, ask
returns the first block's text as answer and the full model_dump dict as
raw_response, having issued exactly the one request. -/
theorem ask_success_first_text (a : ClaudeAgent) (q : String) (ps : List Param)
    (remote : WireRequest → RemoteOutcome) (b : ContentBlock)
    (rest : List ContentBlock) (dump : RawDict)
    (h : remote (builtReq q ps) = RemoteOutcome.ok ⟨b :: rest, dump⟩) :
    a.ask q ps remote = .ok (⟨b.text, some dump⟩, a, [builtReq q ps]) := by
  rw [ask_eq, h]
  rfl

/-- Witness for C7: a mocked reply with content text Rome yields answer
Rome. -/
theorem ask_success_first_text_witness :
    (fun _ : WireRequest =>
        RemoteOutcome.ok ⟨[⟨"Rome"⟩], [("answer", JsonVal.str "Rome")]⟩)
        (builtReq "What is the capital of Italy?" []) =
      RemoteOutcome.ok ⟨[⟨"Rome"⟩], [("answer", JsonVal.str "Rome")]⟩
    ∧ ClaudeAgent.ask ⟨"k", "k"⟩ "What is the capital of Italy?" []
        (fun _ => RemoteOutcome.ok ⟨[⟨"Rome"⟩], [("answer", JsonVal.str "Rome")]⟩) =
      .ok (⟨"Rome", some [("answer", JsonVal.str "Rome")]⟩, ⟨"k", "k"⟩,
           [builtReq "What is the capital of Italy?" []]) :=
  ⟨rfl, ask_success_first_text ⟨"k", "k"⟩ "What is the capital of Italy?" []
    (fun _ => RemoteOutcome.ok ⟨[⟨"Rome"⟩], [("answer", JsonVal.str "Rome")]⟩)
    ⟨"Rome"⟩ [] [("answer", JsonVal.str "Rome")] rfl⟩

/-- C9: ask leaves the wrapper unchanged; the agent state after any call,
whatever the question, overrides and remote outcome, equals the state
from construction, field by field. -/
theorem ask_preserves_agent (a : ClaudeAgent) (q : String) (ps : List Param)
    (remote : WireRequest → RemoteOutcome) :
    askAgent a q ps remote = a
    ∧ (askAgent a q ps remote).api_key = a.api_key
    ∧ (askAgent a q ps remote).client_key = a.client_key := by
  unfold askAgent
  rw [ask_eq]
  exact ⟨rfl, rfl, rfl⟩

/-- The override loop distributes over list append, propagating any
ValueError raised in the first half. -/
theorem applyParamsX_append (X : AgentQueryX) (l1 l2 : List ParamX) :
    applyParamsX X (l1 ++ l2) =
      match applyParamsX X l1 with
      | Except.ok Y => applyParamsX Y l2
      | Except.error e => Except.error e := by
  induction l1 generalizing X with
  | nil => rfl
  | cons p l1 ih =>
    cases p with
    | messages v => exact ih { X with messages := v }
    | model s => exact ih { X with model := s }
    | max_tokens n => exact ih { X with max_tokens := n }
    | temperature t => exact ih { X with temperature := t }
    | method key => rfl
    | unknown k2 => exact ih X

/-- A hasattr-false key anywhere in the override list is skipped: the loop
behaves as if the entry were absent. -/
theorem applyParamsX_unknown (X : AgentQueryX) (u : String) (ps1 ps2 : List ParamX) :
    applyParamsX X (ps1 ++ ParamX.unknown u :: ps2) = applyParamsX X (ps1 ++ ps2) := by
  induction ps1 generalizing X with
  | nil => rfl
  | cons p ps1 ih =>
    cases p with
    | messages v => exact ih { X with messages := v }
    | model s => exact ih { X with model := s }
    | max_tokens n => exact ih { X with max_tokens := n }
    | temperature t => exact ih { X with temperature := t }
    | method key => rfl
    | unknown k2 => exact ih X

/-- The first method-name key reached by the loop raises its ValueError,
whatever entries follow it. -/
theorem applyParamsX_method (X R : AgentQueryX) (k : String) (ps1 ps2 : List ParamX)
    (h : applyParamsX X ps1 = Except.ok R) :
    applyParamsX X (ps1 ++ ParamX.method k :: ps2) = Except.error (noFieldError k) := by
  induction ps1 generalizing X with
  | nil => rfl
  | cons p ps1 ih =>
    cases p with
    | messages v => exact ih { X with messages := v } h
    | model s => exact ih { X with model := s } h
    | max_tokens n => exact ih { X with max_tokens := n } h
    | temperature t => exact ih { X with temperature := t } h
    | method key => cases h
    | unknown k2 => exact ih X h

/-- A successful override run containing no messages key leaves the
messages field as it started. -/
theorem applyParamsX_messages_frame (X Q : AgentQueryX) (l : List ParamX)
    (h : applyParamsX X l = Except.ok Q)
    (hl : ∀ m : List MsgVal, ParamX.messages m ∉ l) :
    Q.messages = X.messages := by
  induction l generalizing X with
  | nil =>
    cases h
    rfl
  | cons p l ih =>
    have hl2 : ∀ m : List MsgVal, ParamX.messages m ∉ l :=
      fun m hm => hl m (List.mem_cons_of_mem _ hm)
    cases p with
    | messages v => exact absurd (List.mem_cons_self _ _) (hl v)
    | model s => exact ih { X with model := s } h hl2
    | max_tokens n => exact ih { X with max_tokens := n } h hl2
    | temperature t => exact ih { X with temperature := t } h hl2
    | method key => cases h
    | unknown key => exact ih X h hl2

/-- Wire conversion of a list of well-formed message objects is the
element-wise, order-preserving role/content map. -/
theorem wireMsgs_map (L : List AgentMessage) :
    wireMsgs (L.map MsgVal.msg) =
      Except.ok (L.map fun m => (⟨m.role, m.content⟩ : WireMessage)) := by
  induction L with
  | nil => rfl
  | cons m L ih =>
    rw [List.map_cons, List.map_cons]
    unfold wireMsgs
    rw [ih]

/-- askX is askXCore started from the freshly validated default query. -/
theorem askX_core (a : ClaudeAgent) (q : String) (ps : List ParamX)
    (remote : WireRequest → RemoteOutcome) :
    a.askX q ps remote = askXCore a (defaultQueryX q) ps remote := by
  unfold ClaudeAgent.askX
  rw [construct_default]
  rfl

/-- Normal form of askXCore when the override loop and the wire conversion
both succeed: one request is issued, carrying the overridden query's
fields, and the outcome goes through respOf. -/
theorem askXCore_eq (a : ClaudeAgent) (q0 Q : AgentQueryX) (ps : List ParamX)
    (ws : List WireMessage) (remote : WireRequest → RemoteOutcome)
    (h1 : applyParamsX q0 ps = Except.ok Q)
    (h2 : wireMsgs Q.messages = Except.ok ws) :
    askXCore a q0 ps remote =
      Except.ok (respOf (remote ⟨Q.model, Q.max_tokens, Q.temperature, ws⟩), a,
                 [⟨Q.model, Q.max_tokens, Q.temperature, ws⟩]) := by
  unfold askXCore
  simp only [h1, h2]
  cases remote ⟨Q.model, Q.max_tokens, Q.temperature, ws⟩ with
  | ok r =>
    obtain ⟨content, dump⟩ := r
    cases content with
    | nil => rfl
    | cons b rest => rfl
  | exn e => rfl

/-- A method-name key in the override list makes askXCore propagate the
ValueError, provided the loop reaches it. -/
theorem askXCore_method (a : ClaudeAgent) (q0 R : AgentQueryX) (k : String)
    (ps1 ps2 : List ParamX) (remote : WireRequest → RemoteOutcome)
    (h : applyParamsX q0 ps1 = Except.ok R) :
    askXCore a q0 (ps1 ++ ParamX.method k :: ps2) remote =
      Except.error (noFieldError k) := by
  unfold askXCore
  rw [applyParamsX_method q0 R k ps1 ps2 h]

/-- When the overridden messages value fails wire conversion, the raised
attribute error is caught inside the try: askXCore returns the Error
response having issued no request. -/
theorem askXCore_badMessages (a : ClaudeAgent) (q0 Q : AgentQueryX)
    (ps : List ParamX) (err : String) (remote : WireRequest → RemoteOutcome)
    (h1 : applyParamsX q0 ps = Except.ok Q)
    (h2 : wireMsgs Q.messages = Except.error err) :
    askXCore a q0 ps remote =
      Except.ok (⟨"Error: " ++ err, some [("error", JsonVal.str err)]⟩, a, []) := by
  unfold askXCore
  simp only [h1, h2]

/-- On the benign fragment, the override loop of the full model computes
the injection of the benign fold. -/
theorem applyParamsX_toX (X : AgentQuery) (ps : List Param) :
    applyParamsX X.toX (ps.map Param.toX) = Except.ok (ps.foldl setParam X).toX := by
  induction ps generalizing X with
  | nil => rfl
  | cons p ps ih =>
    cases p with
    | messages l => exact ih { X with messages := l }
    | model s => exact ih { X with model := s }
    | max_tokens n => exact ih { X with max_tokens := n }
    | temperature t => exact ih { X with temperature := t }
    | unknown k => exact ih X

/-- The full model agrees with the benign fragment on every benign
override list: ask is the restriction of askX. -/
theorem askX_agrees (a : ClaudeAgent) (q : String) (ps : List Param)
    (remote : WireRequest → RemoteOutcome) :
    a.askX q (ps.map Param.toX) remote = a.ask q ps remote := by
  have h1 : applyParamsX (defaultQueryX q) (ps.map Param.toX) =
      Except.ok (AgentQuery.toX (builtQuery q ps)) :=
    applyParamsX_toX (defaultQuery q) ps
  have h2 : wireMsgs (AgentQuery.toX (builtQuery q ps)).messages =
      Except.ok ((builtQuery q ps).messages.map fun m =>
        (⟨m.role, m.content⟩ : WireMessage)) :=
    wireMsgs_map (builtQuery q ps).messages
  rw [ask_eq, askX_core,
      askXCore_eq a (defaultQueryX q) (AgentQuery.toX (builtQuery q ps))
        (ps.map Param.toX)
        ((builtQuery q ps).messages.map fun m => (⟨m.role, m.content⟩ : WireMessage))
        remote h1 h2]
  rfl

/-- C8 counterexample: the override key dict names a pydantic method, not
a Query field, yet it passes the hasattr guard and setattr raises
ValueError outside the try: ask propagates the error and issues zero
remote calls, refuting that every key not matching a known field is
ignored without error with exactly one call made. -/
theorem askX_method_key_cex :
    ClaudeAgent.askX ⟨"k", "k"⟩ "x" [ParamX.method "dict"]
        (fun _ => RemoteOutcome.exn "never") = Except.error (noFieldError "dict")
    ∧ askXTrace ⟨"k", "k"⟩ "x" [ParamX.method "dict"]
        (fun _ => RemoteOutcome.exn "never") = [] := by
  have h : ClaudeAgent.askX ⟨"k", "k"⟩ "x" [ParamX.method "dict"]
      (fun _ => RemoteOutcome.exn "never") = Except.error (noFieldError "dict") := by
    rw [askX_core]
    exact askXCore_method ⟨"k", "k"⟩ (defaultQueryX "x") (defaultQueryX "x") "dict"
      [] [] (fun _ => RemoteOutcome.exn "never") rfl
  refine ⟨h, ?_⟩
  unfold askXTrace
  rw [h]

/-- C8 amended: for override mappings whose keys all name Query fields or
fail hasattr, ask issues exactly one remote call carrying the overridden
query's model, max_tokens and temperature with the message list converted
element-wise in order to role/content wire shape; hasattr-false keys are
ignored without error, equivalently to their absence, and a temperature
override alone yields that temperature over the defaults; but a key
naming a pydantic method or class attribute passes the hasattr guard and
makes setattr raise ValueError, which propagates out of ask before any
remote call. -/
theorem askX_request_shape (a : ClaudeAgent) (q k u : String)
    (ps ps1 ps2 : List ParamX) (t : Rat) (remote : WireRequest → RemoteOutcome)
    (Q R : AgentQueryX) (ws : List WireMessage)
    (h1 : applyParamsX (defaultQueryX q) ps = Except.ok Q)
    (h2 : wireMsgs Q.messages = Except.ok ws)
    (h3 : applyParamsX (defaultQueryX q) ps1 = Except.ok R) :
    askXTrace a q ps remote = [⟨Q.model, Q.max_tokens, Q.temperature, ws⟩]
    ∧ (∀ L : List AgentMessage,
        wireMsgs (L.map MsgVal.msg) =
          Except.ok (L.map fun m => (⟨m.role, m.content⟩ : WireMessage)))
    ∧ applyParamsX (defaultQueryX q) (ps1 ++ ParamX.unknown u :: ps2) =
        applyParamsX (defaultQueryX q) (ps1 ++ ps2)
    ∧ applyParamsX (defaultQueryX q) [ParamX.temperature t] =
        Except.ok { defaultQueryX q with temperature := t }
    ∧ a.askX q (ps1 ++ ParamX.method k :: ps2) remote = Except.error (noFieldError k)
    ∧ askXTrace a q (ps1 ++ ParamX.method k :: ps2) remote = [] := by
  have hm : a.askX q (ps1 ++ ParamX.method k :: ps2) remote =
      Except.error (noFieldError k) := by
    rw [askX_core]
    exact askXCore_method a (defaultQueryX q) R k ps1 ps2 remote h3
  refine ⟨?_, wireMsgs_map, applyParamsX_unknown _ u ps1 ps2, rfl, hm, ?_⟩
  · unfold askXTrace
    rw [askX_core, askXCore_eq a (defaultQueryX q) Q ps ws remote h1 h2]
  · unfold askXTrace
    rw [hm]

/-- Witness for C8: a temperature override of one fifth yields the one
outgoing request with temperature one fifth over defaults, while the
method-name key model_dump makes ask propagate the ValueError. -/
theorem askX_request_shape_witness :
    applyParamsX (defaultQueryX "x") [ParamX.temperature ((1 : Rat) / 5)] =
      Except.ok { defaultQueryX "x" with temperature := (1 : Rat) / 5 }
    ∧ askXTrace ⟨"k", "k"⟩ "x" [ParamX.temperature ((1 : Rat) / 5)]
        (fun _ => RemoteOutcome.exn "net") =
      [⟨defaultModel, 1000, (1 : Rat) / 5, [⟨"user", "x"⟩]⟩]
    ∧ ClaudeAgent.askX ⟨"k", "k"⟩ "x" [ParamX.method "model_dump"]
        (fun _ => RemoteOutcome.exn "net") =
      Except.error (noFieldError "model_dump") :=
  ⟨rfl,
   (askX_request_shape ⟨"k", "k"⟩ "x" "model_dump" "bogus"
      [ParamX.temperature ((1 : Rat) / 5)] [] [] ((1 : Rat) / 5)
      (fun _ => RemoteOutcome.exn "net")
      { defaultQueryX "x" with temperature := (1 : Rat) / 5 } (defaultQueryX "x")
      [⟨"user", "x"⟩] rfl rfl rfl).1,
   (askX_request_shape ⟨"k", "k"⟩ "x" "model_dump" "bogus"
      [ParamX.temperature ((1 : Rat) / 5)] [] [] ((1 : Rat) / 5)
      (fun _ => RemoteOutcome.exn "net")
      { defaultQueryX "x" with temperature := (1 : Rat) / 5 } (defaultQueryX "x")
      [⟨"user", "x"⟩] rfl rfl rfl).2.2.2.2.1⟩

/-- C10 counterexample: an override mapping containing the messages key
alongside the method-name key dict raises ValueError before the call, so
no outgoing request is issued at all and none carries the override value,
refuting the claim over arbitrary mappings containing messages. -/
theorem askX_messages_method_cex :
    ClaudeAgent.askX ⟨"k", "k"⟩ "What is the capital of Italy?"
        [ParamX.messages [MsgVal.msg ⟨"assistant", "ciao"⟩], ParamX.method "dict"]
        (fun _ => RemoteOutcome.exn "never") = Except.error (noFieldError "dict")
    ∧ askXTrace ⟨"k", "k"⟩ "What is the capital of Italy?"
        [ParamX.messages [MsgVal.msg ⟨"assistant", "ciao"⟩], ParamX.method "dict"]
        (fun _ => RemoteOutcome.exn "never") = [] := by
  have h : ClaudeAgent.askX ⟨"k", "k"⟩ "What is the capital of Italy?"
      [ParamX.messages [MsgVal.msg ⟨"assistant", "ciao"⟩], ParamX.method "dict"]
      (fun _ => RemoteOutcome.exn "never") = Except.error (noFieldError "dict") := by
    rw [askX_core]
    exact askXCore_method ⟨"k", "k"⟩ (defaultQueryX "What is the capital of Italy?")
      { defaultQueryX "What is the capital of Italy?" with
        messages := [MsgVal.msg ⟨"assistant", "ciao"⟩] } "dict"
      [ParamX.messages [MsgVal.msg ⟨"assistant", "ciao"⟩]] []
      (fun _ => RemoteOutcome.exn "never") rfl
  refine ⟨h, ?_⟩
  unfold askXTrace
  rw [h]

/-- C10 amended: an override whose messages entry carries a list of
well-formed message objects, with no later messages entry, replaces the
internally built user message: when the loop succeeds the outgoing
request's message list is exactly the override value in wire shape, so
the question need not appear; an accompanying pydantic method-name key
instead raises ValueError before any call; and a messages value
containing a non-message element raises on attribute access inside the
try, yielding an Error response with no request issued. -/
theorem askX_messages_override (a : ClaudeAgent) (q k : String)
    (ps1 ps2 : List ParamX) (L : List AgentMessage) (Q : AgentQueryX)
    (remote : WireRequest → RemoteOutcome)
    (h1 : applyParamsX (defaultQueryX q)
        (ps1 ++ ParamX.messages (L.map MsgVal.msg) :: ps2) = Except.ok Q)
    (hps2 : ∀ l : List MsgVal, ParamX.messages l ∉ ps2) :
    Q.messages = L.map MsgVal.msg
    ∧ askXTrace a q (ps1 ++ ParamX.messages (L.map MsgVal.msg) :: ps2) remote =
        [⟨Q.model, Q.max_tokens, Q.temperature,
          L.map fun m => (⟨m.role, m.content⟩ : WireMessage)⟩]
    ∧ a.askX q (ps1 ++ ParamX.messages (L.map MsgVal.msg) :: ParamX.method k :: ps2)
        remote = Except.error (noFieldError k)
    ∧ (∀ (bad : List MsgVal) (err : String) (Q2 : AgentQueryX),
        applyParamsX (defaultQueryX q) (ps1 ++ ParamX.messages bad :: ps2) =
          Except.ok Q2 →
        wireMsgs bad = Except.error err →
        a.askX q (ps1 ++ ParamX.messages bad :: ps2) remote =
          Except.ok (⟨"Error: " ++ err, some [("error", JsonVal.str err)]⟩, a, [])) := by
  have hsplit : (match applyParamsX (defaultQueryX q) ps1 with
      | Except.ok Y => applyParamsX Y (ParamX.messages (L.map MsgVal.msg) :: ps2)
      | Except.error e => Except.error e) = Except.ok Q := by
    rw [← applyParamsX_append]
    exact h1
  cases hmid : applyParamsX (defaultQueryX q) ps1 with
  | error e =>
    rw [hmid] at hsplit
    cases hsplit
  | ok mid =>
    rw [hmid] at hsplit
    have h1b : applyParamsX { mid with messages := L.map MsgVal.msg } ps2 =
        Except.ok Q := hsplit
    have hQm : Q.messages = L.map MsgVal.msg :=
      applyParamsX_messages_frame _ Q ps2 h1b hps2
    have h2 : wireMsgs Q.messages =
        Except.ok (L.map fun m => (⟨m.role, m.content⟩ : WireMessage)) := by
      rw [hQm]
      exact wireMsgs_map L
    have hmethod : a.askX q
        (ps1 ++ ParamX.messages (L.map MsgVal.msg) :: ParamX.method k :: ps2) remote =
        Except.error (noFieldError k) := by
      rw [askX_core]
      have hmid2 : applyParamsX (defaultQueryX q)
          (ps1 ++ [ParamX.messages (L.map MsgVal.msg)]) =
          Except.ok { mid with messages := L.map MsgVal.msg } := by
        rw [applyParamsX_append, hmid]
        rfl
      have hc := askXCore_method a (defaultQueryX q)
        { mid with messages := L.map MsgVal.msg } k
        (ps1 ++ [ParamX.messages (L.map MsgVal.msg)]) ps2 remote hmid2
      rw [List.append_assoc] at hc
      exact hc
    refine ⟨hQm, ?_, hmethod, ?_⟩
    · unfold askXTrace
      rw [askX_core, askXCore_eq a (defaultQueryX q) Q _ _ remote h1 h2]
    · intro bad err Q2 hb1 hb2
      rw [askX_core]
      have hbsplit : (match applyParamsX (defaultQueryX q) ps1 with
          | Except.ok Y => applyParamsX Y (ParamX.messages bad :: ps2)
          | Except.error e => Except.error e) = Except.ok Q2 := by
        rw [← applyParamsX_append]
        exact hb1
      rw [hmid] at hbsplit
      have hb1b : applyParamsX { mid with messages := bad } ps2 =
          Except.ok Q2 := hbsplit
      have hQ2m : Q2.messages = bad :=
        applyParamsX_messages_frame _ Q2 ps2 hb1b hps2
      have hb2m : wireMsgs Q2.messages = Except.error err := by
        rw [hQ2m]
        exact hb2
      exact askXCore_badMessages a (defaultQueryX q) Q2 _ err remote hb1 hb2m

/-- Witness for C10: the messages override carrying one assistant message,
followed by a temperature override, makes the outgoing message list
exactly that assistant message — the question appears nowhere. -/
theorem askX_messages_override_witness :
    applyParamsX (defaultQueryX "What is the capital of Italy?")
        ([] ++ ParamX.messages [MsgVal.msg ⟨"assistant", "ciao"⟩] ::
          [ParamX.temperature ((1 : Rat) / 2)]) =
      Except.ok { defaultQueryX "What is the capital of Italy?" with
        messages := [MsgVal.msg ⟨"assistant", "ciao"⟩],
        temperature := (1 : Rat) / 2 }
    ∧ ({ defaultQueryX "What is the capital of Italy?" with
          messages := [MsgVal.msg ⟨"assistant", "ciao"⟩],
          temperature := (1 : Rat) / 2 } : AgentQueryX).messages =
        [MsgVal.msg ⟨"assistant", "ciao"⟩]
    ∧ askXTrace ⟨"k", "k"⟩ "What is the capital of Italy?"
        ([] ++ ParamX.messages [MsgVal.msg ⟨"assistant", "ciao"⟩] ::
          [ParamX.temperature ((1 : Rat) / 2)])
        (fun _ => RemoteOutcome.exn "x") =
      [⟨defaultModel, 1000, (1 : Rat) / 2, [⟨"assistant", "ciao"⟩]⟩] :=
  ⟨rfl,
   (askX_messages_override ⟨"k", "k"⟩ "What is the capital of Italy?" "dict" []
      [ParamX.temperature ((1 : Rat) / 2)] [⟨"assistant", "ciao"⟩]
      { defaultQueryX "What is the capital of Italy?" with
        messages := [MsgVal.msg ⟨"assistant", "ciao"⟩],
        temperature := (1 : Rat) / 2 }
      (fun _ => RemoteOutcome.exn "x") rfl (fun l hl => by simp at hl)).1,
   (askX_messages_override ⟨"k", "k"⟩ "What is the capital of Italy?" "dict" []
      [ParamX.temperature ((1 : Rat) / 2)] [⟨"assistant", "ciao"⟩]
      { defaultQueryX "What is the capital of Italy?" with
        messages := [MsgVal.msg ⟨"assistant", "ciao"⟩],
        temperature := (1 : Rat) / 2 }
      (fun _ => RemoteOutcome.exn "x") rfl (fun l hl => by simp at hl)).2.1⟩

end CapAgent
